import Mathlib

/-!
Verification of the swift-intake-hub patient-intake workflow.

The definitions below are a shallow embedding of the code of the repository:
database operations (SQL migrations under `supabase/migrations/`),
the public consent-form submission flow (`IntakeForms` page), and the
`send-intake-email` edge function.  Timestamps are modelled as `Nat`,
uuids as `Nat`, jsonb form payloads as a structure holding exactly the
fields the client submits, and the database as lists of rows.
-/

namespace SwiftIntake

/-- The fields of the zod `formSchema` on the intake-forms page
(dateOfBirth, address, emergency contact, the three consent booleans,
patientName, accidentDate). -/
structure RawForm where
  dateOfBirth : String
  address : String
  emergencyContactName : String
  emergencyContactPhone : String
  newPatientConsent : Bool
  patientName : String
  insuranceAssignmentConsent : Bool
  emergencyMedicalConsent : Bool
  accidentDate : String
deriving DecidableEq, Repr

/-- The `form_data` jsonb payload persisted by `onSubmit`: the validated
schema fields spread together with the captured signature data-url. -/
structure FormData extends RawForm where
  signature : Option String
deriving DecidableEq, Repr

/-- A row of `public.intake_forms` (migration 20250815133643, with the
pdf columns added by migration 20250815143529). -/
structure IntakeFormRow where
  id : Nat
  patient_id : Nat
  form_data : FormData
  signed_at : Option Nat
  fax_sent : Bool
  email_sent : Bool
  pdf_url : Option String
  pdf_generated_at : Option Nat
  created_at : Nat
deriving DecidableEq, Repr

/-- A row of `public.patients`. -/
structure PatientRow where
  id : Nat
  name : String
  phone : Option String
deriving DecidableEq, Repr

/-- A row of `public.email_logs` (migration 20250815140317): an
append-only record of a failed notification attempt. -/
structure EmailLogRow where
  intake_form_id : Nat
  error_message : String
deriving DecidableEq, Repr

/-- A row of `public.intake_sessions` (migration 20250815173214). -/
structure IntakeSessionRow where
  id : Nat
  session_token : String
  patient_name : String
  patient_phone : Option String
  expires_at : Nat
  created_at : Nat
  completed : Bool
deriving DecidableEq, Repr

abbrev IntakeDB := List IntakeFormRow

/-- SQL function `public.create_intake_form(_patient_id, _form_data,
_signed_at)` (migration 20250815154900): an `INSERT ... ON CONFLICT
(patient_id) DO UPDATE` keyed on the `unique_patient_intake_form`
constraint.  On
conflict it overwrites `form_data` and `signed_at` and resets
`fax_sent`/`email_sent` to false, leaving every other column of the
existing row untouched; otherwise it inserts a fresh row.  `now` is the
database clock (used by `COALESCE(_signed_at, now())` and the
`created_at` default), `nextId` the generated uuid for a fresh insert.
Returns the id of the inserted or updated row. -/
def create_intake_form (nextId now : Nat) (pid : Nat) (fd : FormData)
    (sa : Option Nat) (db : IntakeDB) : Nat × IntakeDB :=
  match db.find? (fun r => r.patient_id == pid) with
  | some r =>
      (r.id, db.map (fun x =>
        if x.patient_id == pid then
          { x with form_data := fd, signed_at := some (sa.getD now),
                   fax_sent := false, email_sent := false }
        else x))
  | none =>
      (nextId, db ++ [{ id := nextId, patient_id := pid, form_data := fd,
                        signed_at := some (sa.getD now), fax_sent := false,
                        email_sent := false, pdf_url := none,
                        pdf_generated_at := none, created_at := now }])

/-- The `unique_patient_intake_form` constraint (migration
20250815154946): no two rows of `intake_forms` share a `patient_id`. -/
def uniquePatient (db : IntakeDB) : Prop :=
  db.Pairwise (fun a b => a.patient_id ≠ b.patient_id)

instance (db : IntakeDB) : Decidable (uniquePatient db) := by
  unfold uniquePatient; exact inferInstance

/-- A call sequence for `create_intake_form`: each element is the
`(_patient_id, _form_data, _signed_at)` argument triple of one call.
The generated id and the clock advance between calls. -/
def applyCalls (calls : List (Nat × FormData × Option Nat))
    (nextId now : Nat) (db : IntakeDB) : IntakeDB :=
  match calls with
  | [] => db
  | (pid, fd, sa) :: rest =>
      applyCalls rest (nextId + 1) (now + 1)
        (create_intake_form nextId now pid fd sa db).2

/-! ## Row-level security, final policy state

After the last migration in the history, the policies applicable to the
`anon` role are: on `intake_forms`, SELECT is governed by "Deny all
anonymous reads to intake forms" `USING (false)` (migration
20250815154900) — the permissive staff SELECT/UPDATE/DELETE policies
are `TO authenticated` and never apply to `anon`; INSERT is admitted by
"Allow intake form creation from valid sessions" `WITH CHECK (true)`
(migration 20250815173214).  On `patients`, the policy "Allow anonymous
to read patients for foreign key validation" is dropped, leaving no
SELECT policy applicable to `anon`. -/

/-- Anonymous SELECT predicate on `intake_forms`: `USING (false)`. -/
def anonSelectPolicyIntakeForms : IntakeFormRow → Bool := fun _ => false

/-- Anonymous SELECT predicate on `patients`: no applicable permissive
policy, hence row-level security exposes no row. -/
def anonSelectPolicyPatients : PatientRow → Bool := fun _ => false

/-- Anonymous UPDATE predicate on `intake_forms`: the only UPDATE
policy is "Only medical staff can update intake forms"
`TO authenticated`, inapplicable to `anon`. -/
def anonUpdatePolicyIntakeForms : IntakeFormRow → Bool := fun _ => false

/-- Anonymous DELETE predicate on `intake_forms`: the only DELETE
policy is "Only admins can delete intake forms" `TO authenticated`. -/
def anonDeletePolicyIntakeForms : IntakeFormRow → Bool := fun _ => false

/-- Anonymous INSERT check on `intake_forms`: `WITH CHECK (true)`. -/
def anonInsertPolicyIntakeForms : IntakeFormRow → Bool := fun _ => true

/-- Outcome of a read request.  Row-level security filters invisible
rows, so a denied request is indistinguishable from a missing row: both
surface as the generic denial. -/
inductive ReadOutcome
  | authorizationDenied
  | row (id : Nat)
deriving DecidableEq, Repr

/-- Anonymous read of a single `intake_forms` row by id: the policy
filter runs first, then the id match; an empty result is the generic
"not authorized / not found" signal. -/
def anonReadIntakeForm (db : IntakeDB) (fid : Nat) : ReadOutcome :=
  match (db.filter anonSelectPolicyIntakeForms).filter (fun r => r.id == fid) with
  | [] => ReadOutcome.authorizationDenied
  | r :: _ => ReadOutcome.row r.id

/-- Anonymous read of a single `patients` row by id. -/
def anonReadPatient (ps : List PatientRow) (pid : Nat) : ReadOutcome :=
  match (ps.filter anonSelectPolicyPatients).filter (fun p => p.id == pid) with
  | [] => ReadOutcome.authorizationDenied
  | p :: _ => ReadOutcome.row p.id

/-! ## Operations reachable by an anonymous principal on intake_forms -/

/-- The operations an anonymous principal can direct at the
`intake_forms` table: the `create_intake_form` RPC (granted `EXECUTE
... TO anon` by migration 20250815154900) and the four direct table
operations, each governed by the row-level-security predicates
above. -/
inductive AnonOp
  | rpcCreateIntakeForm (pid : Nat) (fd : FormData) (sa : Option Nat)
  | selectIntakeForm (fid : Nat)
  | insertIntakeForm (row : IntakeFormRow)
  | updateIntakeForm (fid : Nat) (fd : FormData)
  | deleteIntakeForm (fid : Nat)
deriving DecidableEq, Repr

/-- True for the direct table operations, false for the privileged
`create_intake_form` RPC. -/
def AnonOp.isDirect : AnonOp → Bool
  | AnonOp.rpcCreateIntakeForm _ _ _ => false
  | _ => true

/-- Effect of an anonymous operation on the `intake_forms` table.  A
direct INSERT passes `WITH CHECK (true)` but the
`unique_patient_intake_form` constraint rejects a duplicate patient
reference; UPDATE and DELETE see only the rows their (anon-inapplicable)
policies expose. -/
def applyAnonOp (nextId now : Nat) (op : AnonOp) (db : IntakeDB) : IntakeDB :=
  match op with
  | AnonOp.rpcCreateIntakeForm pid fd sa =>
      (create_intake_form nextId now pid fd sa db).2
  | AnonOp.selectIntakeForm _ => db
  | AnonOp.insertIntakeForm row =>
      if db.any (fun r => r.patient_id == row.patient_id) ||
         !anonInsertPolicyIntakeForms row then db
      else db ++ [row]
  | AnonOp.updateIntakeForm fid fd =>
      db.map (fun r =>
        if r.id == fid && anonUpdatePolicyIntakeForms r then
          { r with form_data := fd }
        else r)
  | AnonOp.deleteIntakeForm fid =>
      db.filter (fun r => !(r.id == fid && anonDeletePolicyIntakeForms r))

/-! ## Backend (service-role) updates from the send-intake-email function -/

/-- The service-role update that stores the generated document
reference: `UPDATE intake_forms SET pdf_url, pdf_generated_at WHERE id`
(send-intake-email handler). -/
def setPdfUrl (fid : Nat) (url : String) (t : Nat) (db : IntakeDB) : IntakeDB :=
  db.map (fun r =>
    if r.id == fid then { r with pdf_url := some url, pdf_generated_at := some t }
    else r)

/-- The service-role update that marks the notification as delivered:
`UPDATE intake_forms SET email_sent = true WHERE id`. -/
def setEmailSent (fid : Nat) (db : IntakeDB) : IntakeDB :=
  db.map (fun r => if r.id == fid then { r with email_sent := true } else r)

/-! ## Client-side submission flow (IntakeForms page) -/

/-- Field-level issues produced by `formSchema.safeParse`: each failing
field contributes its `(field, message)` pair, in schema order. -/
def validateForm (f : RawForm) : List (String × String) :=
  (if 1 ≤ f.dateOfBirth.length then []
   else [("dateOfBirth", "Date of birth is required")]) ++
  (if 1 ≤ f.address.length then []
   else [("address", "Address is required")]) ++
  (if 1 ≤ f.emergencyContactName.length then []
   else [("emergencyContactName", "Emergency contact name is required")]) ++
  (if 1 ≤ f.emergencyContactPhone.length then []
   else [("emergencyContactPhone", "Emergency contact phone is required")]) ++
  (if f.newPatientConsent = true then []
   else [("newPatientConsent", "New Patient Consent is required")]) ++
  (if 1 ≤ f.patientName.length then []
   else [("patientName", "Patient name is required for consent")]) ++
  (if f.insuranceAssignmentConsent = true then []
   else [("insuranceAssignmentConsent",
          "Assignment of Insurance Benefits consent is required")]) ++
  (if f.emergencyMedicalConsent = true then []
   else [("emergencyMedicalConsent",
          "Notice of Emergency Medical Condition acknowledgment is required")]) ++
  (if 1 ≤ f.accidentDate.length then []
   else [("accidentDate",
          "Accident date is required for emergency medical condition")])

/-- Visitor-facing outcome of a submission attempt. -/
inductive SubmitOutcome
  | validationFailed (errors : List (String × String))
  | signatureRequired
  | saved (id : Nat)
deriving DecidableEq, Repr

/-- The submit path of the IntakeForms page: the zod resolver validates
the fields before `onSubmit` runs; `onSubmit` then rejects a missing
signature, and only a fully valid submission reaches the
`create_intake_form` RPC, persisting the answers spread together with
the signature. -/
def submitIntake (raw : RawForm) (signature : Option String)
    (nextId now pid : Nat) (db : IntakeDB) : SubmitOutcome × IntakeDB :=
  match validateForm raw with
  | [] =>
      match signature with
      | none => (SubmitOutcome.signatureRequired, db)
      | some sig =>
          let out := create_intake_form nextId now pid
            { toRawForm := raw, signature := some sig } (some now) db
          (SubmitOutcome.saved out.1, out.2)
  | e :: es => (SubmitOutcome.validationFailed (e :: es), db)

/-! ## Session cleanup sweep -/

/-- SQL function `cleanup_expired_intake_sessions` (migration
20250815173214): `DELETE FROM intake_sessions WHERE expires_at < now()
AND completed = false`. -/
def cleanup_expired_intake_sessions (now : Nat)
    (sessions : List IntakeSessionRow) : List IntakeSessionRow :=
  sessions.filter (fun s => !(decide (s.expires_at < now) && !s.completed))

/-! ## The send-intake-email edge function (jsPDF version) -/

/-- HTTP response of the send-intake-email function, reduced to the
fields the claims speak about. -/
structure HandlerResponse where
  status : Nat
  success : Bool
  message : String
  pdfUrl : Option String
deriving DecidableEq, Repr

/-- Storage path/public URL for the uploaded document:
`{intakeFormId}/{patient name with whitespace replaced}_{id}_intake.pdf`. -/
def publicUrlFor (fid : Nat) (p : PatientRow) : String :=
  toString fid ++ "/" ++ p.name.replace " " "_" ++ "_" ++ toString fid ++ "_intake.pdf"

/-- The send-intake-email handler: fetches the intake form and patient,
generates and uploads the PDF, stores the document reference, then
attempts the email.  The outcomes of the two external collaborators are
passed in: `uploadOk` for the storage upload, `emailOk` with
`emailErrMsg` for the Resend dispatch.  Returns the HTTP response, the
updated `intake_forms` table and the updated `email_logs` table. -/
def sendIntakeEmailHandler (reqId : Option Nat) (db : IntakeDB)
    (patients : List PatientRow) (logs : List EmailLogRow)
    (uploadOk emailOk : Bool) (emailErrMsg : String) (now : Nat) :
    HandlerResponse × IntakeDB × List EmailLogRow :=
  match reqId with
  | none =>
      ({ status := 400, success := false,
         message := "Intake form ID is required", pdfUrl := none }, db, logs)
  | some fid =>
      match db.find? (fun r => r.id == fid) with
      | none =>
          ({ status := 500, success := false,
             message := "Failed to send email: Intake form not found",
             pdfUrl := none }, db, logs ++ [⟨fid, "Intake form not found"⟩])
      | some form =>
          match patients.find? (fun p => p.id == form.patient_id) with
          | none =>
              ({ status := 500, success := false,
                 message := "Failed to send email: Patient not found",
                 pdfUrl := none }, db, logs ++ [⟨fid, "Patient not found"⟩])
          | some patient =>
              if uploadOk = false then
                ({ status := 500, success := false,
                   message := "Failed to send email: Failed to upload PDF to storage",
                   pdfUrl := none }, db, logs)
              else
                let url := publicUrlFor fid patient
                let db1 := setPdfUrl fid url now db
                if emailOk then
                  ({ status := 200, success := true,
                     message := "PDF generated and email sent successfully",
                     pdfUrl := some url }, setEmailSent fid db1, logs)
                else
                  ({ status := 200, success := true,
                     message := "PDF generated successfully (email failed)",
                     pdfUrl := some url }, db1,
                   logs ++ [⟨fid, "Email sending failed: " ++ emailErrMsg⟩])

/-! ## Document generation (generatePDF in send-intake-email)

The document is modelled as the sequence of content items the function
emits.  Geometry (font sizes, y positions, `splitTextToSize` wrapping
and the page breaks it drives) belongs to the jsPDF library, an
external collaborator, and is outside the model.  The ambient Deno
clock is passed in explicitly as `now`; the source of `generatePDF`
never consults it — every date it prints is derived from the stored
`signed_at`/`created_at` of its input row. -/

/-- An element of the rendered document: a text run, an embedded
signature image, or the header separator line. -/
inductive PdfItem
  | text (s : String)
  | image (data : String)
  | line
deriving DecidableEq, Repr

/-- JavaScript string-truthiness fallback `a || b`. -/
def jsOr (a b : String) : String := if a = "" then b else a

/-- Rendering of `new Date(t).toLocaleDateString()`. -/
def localeDateString (t : Nat) : String := "date " ++ toString t

/-- Rendering of `new Date(t).toLocaleTimeString()`. -/
def localeTimeString (t : Nat) : String := "time " ++ toString t

/-- The timestamp the document prints:
`intakeForm.signed_at || intakeForm.created_at`. -/
def submittedAt (f : IntakeFormRow) : Nat := f.signed_at.getD f.created_at

/-- The interpolated patient name: `formData.patientName || patient.name`. -/
def displayName (f : IntakeFormRow) (p : PatientRow) : String :=
  jsOr f.form_data.patientName p.name

/-- The `addHeader` block emitted at the top of each page. -/
def headerItems : List PdfItem :=
  [PdfItem.text "HEALTH ONE MEDICAL CENTER",
   PdfItem.text "ORLANDO – 1803 Park Center Drive, suite 110 - 32835",
   PdfItem.text "GAINESVILLE – 7328 W. University Ave., suite E - 32607",
   PdfItem.line]

def newPatientConsentTitle : String :=
  "NEW PATIENT CONSENT TO THE USE AND DISCLOSURE OF HEALTHCARE INFORMATION FOR TREATMENT, PAYMENT, OR HEALTHCARE OPERATIONS"

def insuranceAssignmentTitle : String :=
  "ASSIGNMENT OF INSURANCE BENEFITS, RELEASE, & DEMAND"

def emergencyMedicalTitle : String :=
  "NOTICE OF EMERGENCY MEDICAL CONDITION"

/-- The agree/not-agree tail of a consent section: an agreed section
renders its agreed line, the signature image when one was captured, and
the "Signed by"/"Date" lines; a declined section renders only its
not-agreed line. -/
def consentDecision (agree : Bool) (sig : Option String)
    (name dateStr agreedLine notAgreedLine : String) : List PdfItem :=
  if agree then
    PdfItem.text agreedLine ::
      ((match sig with
        | some s => [PdfItem.image s]
        | none => []) ++
       [PdfItem.text ("Signed by: " ++ name),
        PdfItem.text ("Date: " ++ dateStr)])
  else
    [PdfItem.text notAgreedLine]

/-- First page: title, patient header, personal fields and the optional
accident block. -/
def pageOneItems (f : IntakeFormRow) (p : PatientRow) : List PdfItem :=
  [PdfItem.text "Patient Intake Form",
   PdfItem.text ("Patient: " ++ p.name),
   PdfItem.text ("Submitted: " ++ localeDateString (submittedAt f)),
   PdfItem.text "Personal Information",
   PdfItem.text "Name:",
   PdfItem.text (jsOr f.form_data.patientName p.name),
   PdfItem.text "Date of Birth:",
   PdfItem.text (jsOr f.form_data.dateOfBirth "Not provided"),
   PdfItem.text "Address:",
   PdfItem.text (jsOr f.form_data.address "Not provided"),
   PdfItem.text "Emergency Contact:",
   PdfItem.text (jsOr f.form_data.emergencyContactName "Not provided" ++ " - " ++
                 jsOr f.form_data.emergencyContactPhone "Not provided")] ++
  (if f.form_data.accidentDate = "" then []
   else [PdfItem.text "Accident Information",
         PdfItem.text "Accident Date:",
         PdfItem.text f.form_data.accidentDate])

/-- Statutory text of the new-patient consent section, with the
patient name interpolated. -/
def newPatientConsentBody (name : String) : List PdfItem :=
  [PdfItem.text newPatientConsentTitle,
   PdfItem.text ("I " ++ name ++ ", understand that as part of my healthcare. HEALTH ONE MEDICAL CENTER, originates and maintains paper and/or electronic records describing my health history, symptoms, examination and test results, diagnosis, treatment, and any plans for further care of treatment."),
   PdfItem.text "I understand that this information serves as:",
   PdfItem.text "• A basis for planning my care and treatment.",
   PdfItem.text "• A means for communication among the many health professionals who contribute to my care.",
   PdfItem.text "• A source of information for applying my diagnosis and surgical information to my bill.",
   PdfItem.text "• A means by which a third-party payer can verify that services billed were actually provided.",
   PdfItem.text "• A tool for routine healthcare operations such as assessing quality and reviewing the competence of healthcare professionals.",
   PdfItem.text "I understand and have been provided with a Notice of Information Practices that provides a more complete description of information uses and disclosures.",
   PdfItem.text "I understand that I have the following rights and privileges:",
   PdfItem.text "• The right to review the notice prior to signing this consent.",
   PdfItem.text "• The right to object to the use of my health information for directory purposes.",
   PdfItem.text "• The right to request restrictions as to how my health information may be used or disclosed or to carry out treatment, payment, or healthcare options.",
   PdfItem.text "I understand that HEALTH ONE MEDICAL CENTER, is not required to agree to the restrictions requested. I understand that I may revoke this consent in writing except to the extent that the organization has already taken action in reliance thereon. I also understand that by refusing to sign this consent or revoking this consent, this organization may refuse to treat me as permitted by Section 164.506 of the Code of Federal Regulations.",
   PdfItem.text "I further understand that HEALTH ONE MEDICAL CENTER, reserves the right to change their notice and practice and prior to implementation in accordance with Section 164.520 of the Code of Federal Regulations. HEALTH ONE MEDICAL CENTER, P.A., change their notice, they will send a copy of any revised notice to the address I have provided (whether U.S. mail or agreed e-mail).",
   PdfItem.text "I understand that as part of my organization\x27s, treatment, payment, or healthcare operations, it may become necessary to disclose my protected health information to another entity. I consent to such disclosure for these permitted uses, including disclosures via fax.",
   PdfItem.text "I fully understand and accept these terms of consent."]

/-- The new-patient consent section with its agree/not-agree tail. -/
def sectionOneItems (f : IntakeFormRow) (p : PatientRow) : List PdfItem :=
  newPatientConsentBody (displayName f p) ++
  consentDecision f.form_data.newPatientConsent f.form_data.signature
    (displayName f p) (localeDateString (submittedAt f))
    "☑ Patient has agreed to this consent"
    "☐ Patient has NOT agreed to this consent"

/-- Statutory text of the insurance-benefit assignment section. -/
def insuranceAssignmentBody (name : String) : List PdfItem :=
  [PdfItem.text insuranceAssignmentTitle,
   PdfItem.text "Insurer and Patient Please Read the Following in its Entirety Carefully!",
   PdfItem.text ("I, " ++ name ++ ", the undersigned patient/insured knowingly, voluntarily and intentionally assign the rights and benefits of my automobile Insurance, a/k/a Personal Injury Protection (hereinafter PIP), Uninsured Motorist, and Medical Payments policy of insurance to the above health care provider. I understand it is the intention of the provider to accept this assignment of benefits in lieu of demanding payment at the time services are rendered. I understand this document will allow the provider to file suit against an insurer for payment of the insurance benefits or an explanation of benefits and to seek §627.428 damages from the insurer. If the provider\x27s bills are applied to a deductible, I agree this will serve as a benefit to me."),
   PdfItem.text "This assignment of benefits includes the cost of transportation, medications, supplies, over due interest and any potential claim for common law or statutory bad faith/unfair claims handling. If the insurer disputes the validity of this assignment of benefits then the insurer is instructed to notify the provider in writing within five days of receipt of this document. Failure to inform the provider shall result in a waiver by the insurer to contest the validity of this document.",
   PdfItem.text "The undersigned directs the insurer to pay the health care provider the maximum amount directly without any reductions & without including the patient\x27s name on the check. To the extent the PIP insurer contends there is a material misrepresentation on the application for insurance resulting in the policy of insurance is declared voided, rescinded, or canceled, I, as the named insured under said policy of insurance, hereby assign the right to receive the premiums paid for my PIP insurance to this provider and to file suit for recovery of the premiums.",
   PdfItem.text "Disputes:",
   PdfItem.text "The insurer is directed by the provider and the undersigned to not issue any checks or drafts in partial settlement of a claim that contain or are accompanied by language releasing the insurer or its insured/patient from liability unless there has been a prior written settlement agreed to by the health provider (specifically the office manager) and the insurer as to the amount payable under the insurance policy. The insured and the provider hereby contests and objects to any reductions or partial payments. Any partial or reduced payment, regardless of the accompanying language, issued by the insurer and deposited by the provider shall be done so under protest, at the risk of the insurer, and the deposit shall not be deemed a waiver, accord, satisfaction, discharge, settlement or agreement by the provider to accept a reduced amount as payment in full. The insurer is hereby placed on notice that this provider reserves the right to seek the full amount of the bills submitted. If the PIP insurer states it can pay claims at 200% of Medicare then the insurer is instructed & directed to provide this provider with a copy of the policy of insurance within 10 days. Any effort by the insurer to pay a disputed debt as full satisfaction must be mailed to the address above, after speaking with the office manager, and mailed to the specific attention of the Office Manager. See Fla. Stat. §673.3111.",
   PdfItem.text "EUOs and IMEs:",
   PdfItem.text "If the insurer schedules a defense examination or examination under oath (hereinafter \x22EUO\x22) the insurer is hereby INSTRUCTED to send a copy of said notification to this provider. The provider or the provider\x27s attorney is expressly authorized to appear at any EUO or IME set by the insurer. The health care provider is not the agent of the insurer or the patient for any purpose. This assignment applies to both past and future medical expenses and is valid even if undated. A photocopy of this assignment is to be considered as valid as the original. I agree to pay any applicable deductible, co-payments, for services rendered after the policy of insurance exhausts and for any other services unrelated to the automobile accident. The health care provider is given the power of attorney to: endorse my name on any check for services rendered by the above provider; and to request and obtain a copy of any statements or examinations under oath given by patient.",
   PdfItem.text "Release of information:",
   PdfItem.text "I authorize this provider to: furnish an insurer, an insurer\x27s intermediary, the patient\x27s other medical providers, and the patient\x27s attorney via mail, fax, or email, with any and all information that may be contained in the medical records; to obtain insurance coverage information (declaration sheet & policy of insurance) in writing and telephonically from the insurer; request from any insurer all explanation of benefits (EOBs) for all providers and non-redacted PIP payout sheets; obtain any written and verbal statements the patient or anyone else provided to the insurer; obtain copies of the entire claim file, the property damage file, and all medical records, including but not limited to, documents, reports, scans, notes, bills, opinions, X-rays, IMEs, and MRIs, from any other medical provider or any insurer. The provider is permitted to produce my medical records to its attorney in connection with any pending lawsuits. The insurer is directed to keep the patient\x27s medical records from this provider private and confidential. The insurer is not authorized to provide these medical records to anyone without the patient\x27s and the provider\x27s prior express written permission.",
   PdfItem.text "Demand:",
   PdfItem.text "Demand is hereby made for the insurer to pay all bills within 30 days without reductions and to mail the latest non-redacted PIP payout sheet and the insurance coverage declaration sheet to the above provider within 15 days. The insurer is directed to pay the bills in the order they are received. However, if a bill from this provider and a claim from anyone else is received by the insurer on the same day the insurer is directed to not apply this provider\x27s bill to the deductible. If a bill from this provider and claim from anyone else is received by the insurer on the same day then the insurer is directed to pay this provider first before the policy is exhausted. In the event the provider\x27s medical bills are disputed or reduced by the insurer for any reason, or amount, the insurer is to: set aside the entire amount disputed or reduced; escrow the full amount at issue; and not pay the disputed amount to anyone or any entity, including myself, until the dispute is resolved by a Court. Do not exhaust the policy. The insurer is instructed to inform, in writing, the provider of any dispute.",
   PdfItem.text "Certification:",
   PdfItem.text "I certify that: I have read and agree to the above; I have not been solicited or promised anything in exchange for receiving health care; I have not received any promises or guarantees from anyone as to the results that may be obtained by any treatment or service; and I agree the provider\x27s prices for medical services, treatment and supplies are reasonable, usual and customary.",
   PdfItem.text "Caution:",
   PdfItem.text "Please read before signing. If you do not completely understand this document please ask us to explain it to you. If you sign below we will assume you understand and agree to the above."]

/-- The insurance-assignment section with its agree/not-agree tail. -/
def sectionTwoItems (f : IntakeFormRow) (p : PatientRow) : List PdfItem :=
  insuranceAssignmentBody (displayName f p) ++
  consentDecision f.form_data.insuranceAssignmentConsent f.form_data.signature
    (displayName f p) (localeDateString (submittedAt f))
    "☑ Patient has agreed to this assignment"
    "☐ Patient has NOT agreed to this assignment"

/-- Statutory text of the emergency-medical-condition section, with the
accident date interpolated (blank line when none was given). -/
def emergencyMedicalBody (accidentDate : String) : List PdfItem :=
  [PdfItem.text emergencyMedicalTitle,
   PdfItem.text "The undersigned licensed medical provider, hereby asserts:",
   PdfItem.text ("1. The below patient, has in the opinion of this medical provider, suffered an Emergency Medical Condition, as a result of the patient\x27s injuries sustained in an automobile accident that occurred on " ++ jsOr accidentDate "________________________" ++ "."),
   PdfItem.text "2. The Basis of the opinion for finding an Emergency Medical Condition is that the patient has sustained acute symptoms of sufficient severity, which may include severe pain, such that the absence of immediate medical attention could reasonably be expected to result in any of the following: a) serious jeopardy to patient health; b) serious impairment to bodily functions; or c) serious dysfunction of a bodily organ or part.",
   PdfItem.text "The undersigned injured person or legal guardian of such person asserts:",
   PdfItem.text "1. The symptoms I reported to the medical provider are true and accurate.",
   PdfItem.text "2. I understand the medical provider has determined I sustained an Emergency Medical condition as a result of the injuries I suffered in the car accident.",
   PdfItem.text "3. The medical provider has explained to my satisfaction the need for future medical attention and the harmful consequences to my health which may occur if I do not receive future treatment."]

/-- The emergency-medical-condition section with its acknowledge tail. -/
def sectionThreeItems (f : IntakeFormRow) (p : PatientRow) : List PdfItem :=
  emergencyMedicalBody f.form_data.accidentDate ++
  consentDecision f.form_data.emergencyMedicalConsent f.form_data.signature
    (displayName f p) (localeDateString (submittedAt f))
    "☑ Patient has acknowledged this notice"
    "☐ Patient has NOT acknowledged this notice"

/-- Closing digital-signature section. -/
def finalSignatureItems (f : IntakeFormRow) (p : PatientRow) : List PdfItem :=
  [PdfItem.text "DIGITAL SIGNATURE"] ++
  (match f.form_data.signature with
   | some s => [PdfItem.image s]
   | none => [PdfItem.text "No digital signature provided"]) ++
  [PdfItem.text ("Electronically signed by: " ++ displayName f p),
   PdfItem.text ("Date signed: " ++ localeDateString (submittedAt f)),
   PdfItem.text ("Time signed: " ++ localeTimeString (submittedAt f)),
   PdfItem.text "This document was electronically signed and is legally binding.",
   PdfItem.text "Digital signature verification available upon request."]

/-- The full document emitted by `generatePDF`.  The ambient runtime
clock `now` is passed in explicitly; the source never reads it. -/
def generatePDF (now : Nat) (f : IntakeFormRow) (p : PatientRow) : List PdfItem :=
  headerItems ++ pageOneItems f p ++
  headerItems ++ sectionOneItems f p ++
  sectionTwoItems f p ++
  sectionThreeItems f p ++
  finalSignatureItems f p

/-- One `create_intake_form` call preserves the patient-uniqueness
invariant. -/
theorem create_intake_form_preserves_unique (nextId now pid : Nat)
    (fd : FormData) (sa : Option Nat) (db : IntakeDB)
    (h : uniquePatient db) :
    uniquePatient (create_intake_form nextId now pid fd sa db).2 := by
  unfold create_intake_form
  cases hf : db.find? (fun r => r.patient_id == pid) with
  | some r =>
      simp only [uniquePatient, List.pairwise_map]
      refine h.imp_of_mem ?_
      intro a b _ _ hab
      by_cases ha : a.patient_id == pid <;> by_cases hb : b.patient_id == pid <;>
        simp [ha, hb, hab]
  | none =>
      have hnone : ∀ x ∈ db, ¬(x.patient_id == pid) = true := by
        intro x hx
        exact List.find?_eq_none.mp hf x hx
      simp only [uniquePatient, List.pairwise_append]
      refine ⟨h, by simp, ?_⟩
      intro a ha b hb
      simp only [List.mem_singleton] at hb
      subst hb
      have := hnone a ha
      simp only [beq_iff_eq] at this
      simpa using this

theorem applyCalls_preserves_unique (calls : List (Nat × FormData × Option Nat))
    (nextId now : Nat) (db : IntakeDB) (h : uniquePatient db) :
    uniquePatient (applyCalls calls nextId now db) := by
  induction calls generalizing nextId now db with
  | nil => exact h
  | cons c rest ih =>
      obtain ⟨pid, fd, sa⟩ := c
      exact ih _ _ _ (create_intake_form_preserves_unique nextId now pid fd sa db h)

theorem uniquePatient_countP_le_one (db : IntakeDB) (h : uniquePatient db)
    (p : Nat) : db.countP (fun r => r.patient_id == p) ≤ 1 := by
  induction db with
  | nil => simp
  | cons a l ih =>
      unfold uniquePatient at h
      rw [List.pairwise_cons] at h
      by_cases ha : a.patient_id = p
      · have hrest : l.countP (fun r => r.patient_id == p) = 0 := by
          rw [List.countP_eq_zero]
          intro b hb
          have := h.1 b hb
          simp only [beq_iff_eq]
          omega
        rw [List.countP_cons]
        simp [ha, hrest]
      · rw [List.countP_cons]
        simp only [beq_iff_eq, ha]
        simpa using ih h.2

/-- C1: starting from the empty `intake_forms` table, every sequence of
`create_intake_form` calls — repeated calls with the same patient id
included — leaves at most one row referencing any given patient id. -/
theorem create_intake_form_at_most_one_per_patient
    (p : Nat) (calls : List (Nat × FormData × Option Nat)) (nextId now : Nat) :
    (applyCalls calls nextId now []).countP (fun r => r.patient_id == p) ≤ 1 :=
  uniquePatient_countP_le_one _
    (applyCalls_preserves_unique calls nextId now [] (by simp [uniquePatient])) p

/-- Under the `unique_patient_intake_form` constraint, two rows with the
same patient reference are the same row. -/
theorem uniquePatient_eq_of_mem (db : IntakeDB) (h : uniquePatient db)
    {a b : IntakeFormRow} (ha : a ∈ db) (hb : b ∈ db)
    (hab : a.patient_id = b.patient_id) : a = b := by
  induction db with
  | nil => cases ha
  | cons x l ih =>
      unfold uniquePatient at h
      rw [List.pairwise_cons] at h
      rcases List.mem_cons.mp ha with rfl | ha' <;>
        rcases List.mem_cons.mp hb with rfl | hb'
      · rfl
      · exact absurd hab (h.1 b hb')
      · exact (h.1 a ha' hab.symm).elim
      · exact ih h.2 ha' hb'

/-- C4: a patient who already has a signed IntakeForm can resubmit:
`create_intake_form` succeeds (returns the id of the existing row rather
than rejecting), overwrites the stored answers, refreshes `signed_at`
to the new submission time, resets `fax_sent`/`email_sent` to false,
and leaves exactly one row for that patient. -/
theorem create_intake_form_resubmission (nextId now pid : Nat)
    (fd : FormData) (sa : Option Nat) (db : IntakeDB) (r : IntakeFormRow)
    (huniq : uniquePatient db) (hr : r ∈ db) (hpid : r.patient_id = pid)
    (hsigned : r.signed_at.isSome = true) :
    (create_intake_form nextId now pid fd sa db).1 = r.id ∧
    (create_intake_form nextId now pid fd sa db).2.countP
      (fun x => x.patient_id == pid) = 1 ∧
    ∀ x ∈ (create_intake_form nextId now pid fd sa db).2,
      x.patient_id = pid →
        x.form_data = fd ∧ x.signed_at = some (sa.getD now) ∧
        x.fax_sent = false ∧ x.email_sent = false := by
  obtain ⟨r', hf, rfl⟩ :
      ∃ r', db.find? (fun x => x.patient_id == pid) = some r' ∧ r' = r := by
    cases hf : db.find? (fun x => x.patient_id == pid) with
    | none =>
        exfalso
        have := List.find?_eq_none.mp hf r hr
        simp [hpid] at this
    | some r' =>
        refine ⟨r', rfl, ?_⟩
        have hr'mem : r' ∈ db := List.mem_of_find?_eq_some hf
        have hr'pid : r'.patient_id = pid := by
          have := List.find?_some hf
          simpa using this
        exact uniquePatient_eq_of_mem db huniq hr'mem hr (by omega)
  refine ⟨?_, ?_, ?_⟩
  · simp [create_intake_form, hf]
  · rw [create_intake_form, hf]
    simp only [List.countP_map]
    have hcong : ∀ x ∈ db,
        (((fun y => y.patient_id == pid) ∘ (fun x =>
          if x.patient_id == pid then
            { x with form_data := fd, signed_at := some (sa.getD now),
                     fax_sent := false, email_sent := false }
          else x)) x = true) ↔ ((fun y => y.patient_id == pid) x = true) := by
      intro x _
      by_cases hx : x.patient_id = pid <;> simp [hx]
    rw [List.countP_congr hcong]
    have hle := uniquePatient_countP_le_one db huniq pid
    have hpos : 0 < db.countP (fun y => y.patient_id == pid) :=
      List.countP_pos_iff.mpr ⟨r', hr, by simp [hpid]⟩
    omega
  · rw [create_intake_form, hf]
    intro x hx hxpid
    simp only [List.mem_map] at hx
    obtain ⟨y, _, rfl⟩ := hx
    by_cases hy : y.patient_id = pid
    · simp [hy]
    · simp [hy] at hxpid

/-- Witness for C4 at a concrete signed form. -/
theorem create_intake_form_resubmission_witness :
    let fdA : FormData :=
      { dateOfBirth := "1980-01-01", address := "1 Main St",
        emergencyContactName := "Ann", emergencyContactPhone := "555",
        newPatientConsent := true, patientName := "Jane Doe",
        insuranceAssignmentConsent := true, emergencyMedicalConsent := true,
        accidentDate := "2025-08-01", signature := some "sigA" }
    let fdB : FormData :=
      { dateOfBirth := "1980-01-01", address := "1 Main St",
        emergencyContactName := "Ann", emergencyContactPhone := "555",
        newPatientConsent := true, patientName := "Jane Doe",
        insuranceAssignmentConsent := false, emergencyMedicalConsent := true,
        accidentDate := "2025-08-01", signature := some "sigB" }
    let r : IntakeFormRow :=
      { id := 4, patient_id := 7, form_data := fdA, signed_at := some 10,
        fax_sent := false, email_sent := true, pdf_url := none,
        pdf_generated_at := none, created_at := 10 }
    (create_intake_form 5 20 7 fdB none [r]).1 = 4 ∧
    (create_intake_form 5 20 7 fdB none [r]).2.countP
      (fun x => x.patient_id == 7) = 1 ∧
    ∀ x ∈ (create_intake_form 5 20 7 fdB none [r]).2,
      x.patient_id = 7 →
        x.form_data = fdB ∧ x.signed_at = some 20 ∧
        x.fax_sent = false ∧ x.email_sent = false := by
  intro fdA fdB r
  exact create_intake_form_resubmission 5 20 7 fdB none [r] r
    (by decide) (by simp) (by decide) (by decide)

/-- C3: an anonymous read of any Patient or IntakeForm record returns
the generic AuthorizationDenied outcome for every state and every
requested id — existing or not — and the outcome is identical to the
outcome on the empty table, so no read distinguishes existing from
non-existing ids. -/
theorem anon_read_always_denied (db : IntakeDB) (ps : List PatientRow)
    (fid pid : Nat) :
    anonReadIntakeForm db fid = ReadOutcome.authorizationDenied ∧
    anonReadPatient ps pid = ReadOutcome.authorizationDenied ∧
    anonReadIntakeForm db fid = anonReadIntakeForm [] fid ∧
    anonReadPatient ps pid = anonReadPatient [] pid := by
  unfold anonReadIntakeForm anonReadPatient anonSelectPolicyIntakeForms
    anonSelectPolicyPatients
  simp

/-- C2 as stated is false on the code: `create_intake_form` is granted
`EXECUTE ... TO anon`, and invoking it on a patient whose IntakeForm
already has signed-at set overwrites the answers of that form.  Concretely,
an anonymous rpc call flips the stored insuranceAssignmentConsent of a
signed form. -/
theorem anon_rpc_overwrites_signed_form :
    let fdA : FormData :=
      { dateOfBirth := "1980-01-01", address := "1 Main St",
        emergencyContactName := "Ann", emergencyContactPhone := "555",
        newPatientConsent := true, patientName := "Jane Doe",
        insuranceAssignmentConsent := true, emergencyMedicalConsent := true,
        accidentDate := "2025-08-01", signature := some "sigA" }
    let fdB : FormData :=
      { fdA with insuranceAssignmentConsent := false, signature := some "sigB" }
    let db0 : IntakeDB :=
      [{ id := 4, patient_id := 7, form_data := fdA, signed_at := some 10,
         fax_sent := false, email_sent := false, pdf_url := none,
         pdf_generated_at := none, created_at := 10 }]
    (db0.all (fun r => r.signed_at.isSome)) = true ∧
    (applyAnonOp 5 20 (AnonOp.rpcCreateIntakeForm 7 fdB none) db0).map
        (fun r => r.form_data) ≠
      db0.map (fun r => r.form_data) := by
  intro fdA fdB db0
  exact ⟨by decide, by decide⟩

/-- The service-role pdf update touches only the document-reference
columns: every other column of every row is unchanged. -/
theorem setPdfUrl_preserves_core (fid : Nat) (url : String) (t : Nat)
    (db : IntakeDB) :
    (setPdfUrl fid url t db).map (fun r =>
        (r.id, r.patient_id, r.form_data, r.signed_at, r.fax_sent,
         r.email_sent, r.created_at)) =
      db.map (fun r =>
        (r.id, r.patient_id, r.form_data, r.signed_at, r.fax_sent,
         r.email_sent, r.created_at)) := by
  rw [setPdfUrl, List.map_map]
  refine List.map_congr_left ?_
  intro r _
  by_cases h : r.id = fid <;> simp [h]

/-- The service-role email_sent update touches only that flag. -/
theorem setEmailSent_preserves_core (fid : Nat) (db : IntakeDB) :
    (setEmailSent fid db).map (fun r =>
        (r.id, r.patient_id, r.form_data, r.signed_at, r.fax_sent,
         r.pdf_url, r.pdf_generated_at, r.created_at)) =
      db.map (fun r =>
        (r.id, r.patient_id, r.form_data, r.signed_at, r.fax_sent,
         r.pdf_url, r.pdf_generated_at, r.created_at)) := by
  rw [setEmailSent, List.map_map]
  refine List.map_congr_left ?_
  intro r _
  by_cases h : r.id = fid <;> simp [h]

/-- C2 amended: once signed-at is set, no direct table operation
available to an anonymous principal changes the stored answers — every
row of `intake_forms` survives every direct anonymous operation
unchanged; the single anonymous path that can rewrite the answers of a
signed form is the privileged `create_intake_form` RPC (resubmission), and
the backend updates only attach the generated-document reference or the
notification flag, all other columns staying unchanged. -/
theorem anon_direct_ops_preserve_rows (db : IntakeDB) (op : AnonOp)
    (nextId now fid t : Nat) (url : String) (h : op.isDirect = true) :
    (∀ r ∈ db, r ∈ applyAnonOp nextId now op db) ∧
    (setPdfUrl fid url t db).map (fun r =>
        (r.id, r.patient_id, r.form_data, r.signed_at, r.fax_sent,
         r.email_sent, r.created_at)) =
      db.map (fun r =>
        (r.id, r.patient_id, r.form_data, r.signed_at, r.fax_sent,
         r.email_sent, r.created_at)) ∧
    (setEmailSent fid db).map (fun r =>
        (r.id, r.patient_id, r.form_data, r.signed_at, r.fax_sent,
         r.pdf_url, r.pdf_generated_at, r.created_at)) =
      db.map (fun r =>
        (r.id, r.patient_id, r.form_data, r.signed_at, r.fax_sent,
         r.pdf_url, r.pdf_generated_at, r.created_at)) := by
  refine ⟨?_, setPdfUrl_preserves_core fid url t db,
    setEmailSent_preserves_core fid db⟩
  intro r hr
  cases op with
  | rpcCreateIntakeForm pid fd sa => simp [AnonOp.isDirect] at h
  | selectIntakeForm _ => exact hr
  | insertIntakeForm row =>
      simp only [applyAnonOp]
      split
      · exact hr
      · exact List.mem_append_left _ hr
  | updateIntakeForm qfid fd =>
      simp only [applyAnonOp, anonUpdatePolicyIntakeForms]
      simpa using hr
  | deleteIntakeForm qfid =>
      simp only [applyAnonOp, anonDeletePolicyIntakeForms]
      simpa using hr

/-- Witness for the amended C2 at a concrete direct operation. -/
theorem anon_direct_ops_preserve_rows_witness :
    let fdA : FormData :=
      { dateOfBirth := "1980-01-01", address := "1 Main St",
        emergencyContactName := "Ann", emergencyContactPhone := "555",
        newPatientConsent := true, patientName := "Jane Doe",
        insuranceAssignmentConsent := true, emergencyMedicalConsent := true,
        accidentDate := "2025-08-01", signature := some "sigA" }
    let r0 : IntakeFormRow :=
      { id := 4, patient_id := 7, form_data := fdA, signed_at := some 10,
        fax_sent := false, email_sent := false, pdf_url := none,
        pdf_generated_at := none, created_at := 10 }
    (∀ r ∈ ([r0] : IntakeDB), r ∈ applyAnonOp 5 20
        (AnonOp.updateIntakeForm 4 { fdA with address := "2 Elm St" }) [r0]) ∧
    (setPdfUrl 4 "u" 30 [r0]).map (fun r =>
        (r.id, r.patient_id, r.form_data, r.signed_at, r.fax_sent,
         r.email_sent, r.created_at)) =
      ([r0] : IntakeDB).map (fun r =>
        (r.id, r.patient_id, r.form_data, r.signed_at, r.fax_sent,
         r.email_sent, r.created_at)) ∧
    (setEmailSent 4 [r0]).map (fun r =>
        (r.id, r.patient_id, r.form_data, r.signed_at, r.fax_sent,
         r.pdf_url, r.pdf_generated_at, r.created_at)) =
      ([r0] : IntakeDB).map (fun r =>
        (r.id, r.patient_id, r.form_data, r.signed_at, r.fax_sent,
         r.pdf_url, r.pdf_generated_at, r.created_at)) := by
  intro fdA r0
  exact anon_direct_ops_preserve_rows [r0]
    (AnonOp.updateIntakeForm 4 { fdA with address := "2 Elm St" })
    5 20 4 30 "u" (by decide)

/-- C5: a submission with any required consent boolean not true, or
with the signature missing, fails validation with field-level detail
and persists nothing: the intake_forms state is unchanged and no
row id is returned. -/
theorem submit_invalid_persists_nothing (raw : RawForm) (sig : Option String)
    (nextId now pid : Nat) (db : IntakeDB)
    (h : raw.newPatientConsent = false ∨ raw.insuranceAssignmentConsent = false ∨
         raw.emergencyMedicalConsent = false ∨ sig = none) :
    (submitIntake raw sig nextId now pid db).2 = db ∧
    (∀ i, (submitIntake raw sig nextId now pid db).1 ≠ SubmitOutcome.saved i) ∧
    (raw.newPatientConsent = false →
      ("newPatientConsent", "New Patient Consent is required") ∈ validateForm raw) ∧
    (raw.insuranceAssignmentConsent = false →
      ("insuranceAssignmentConsent",
       "Assignment of Insurance Benefits consent is required") ∈ validateForm raw) ∧
    (raw.emergencyMedicalConsent = false →
      ("emergencyMedicalConsent",
       "Notice of Emergency Medical Condition acknowledgment is required")
        ∈ validateForm raw) := by
  have hmem1 : raw.newPatientConsent = false →
      ("newPatientConsent", "New Patient Consent is required") ∈ validateForm raw := by
    intro hc
    simp [validateForm, hc]
  have hmem2 : raw.insuranceAssignmentConsent = false →
      ("insuranceAssignmentConsent",
       "Assignment of Insurance Benefits consent is required") ∈ validateForm raw := by
    intro hc
    simp [validateForm, hc]
  have hmem3 : raw.emergencyMedicalConsent = false →
      ("emergencyMedicalConsent",
       "Notice of Emergency Medical Condition acknowledgment is required")
        ∈ validateForm raw := by
    intro hc
    simp [validateForm, hc]
  refine ⟨?_, ?_, hmem1, hmem2, hmem3⟩ <;>
  · rcases h with hc | hc | hc | hc
    case _ =>
      have hne : validateForm raw ≠ [] :=
        List.ne_nil_of_mem (hmem1 hc)
      unfold submitIntake
      cases hv : validateForm raw with
      | nil => exact absurd hv hne
      | cons e es => simp
    case _ =>
      have hne : validateForm raw ≠ [] :=
        List.ne_nil_of_mem (hmem2 hc)
      unfold submitIntake
      cases hv : validateForm raw with
      | nil => exact absurd hv hne
      | cons e es => simp
    case _ =>
      have hne : validateForm raw ≠ [] :=
        List.ne_nil_of_mem (hmem3 hc)
      unfold submitIntake
      cases hv : validateForm raw with
      | nil => exact absurd hv hne
      | cons e es => simp
    case _ =>
      subst hc
      unfold submitIntake
      cases hv : validateForm raw with
      | nil => simp
      | cons e es => simp

/-- Witness for C5: a submission declining the insurance assignment is
rejected and persists nothing. -/
theorem submit_invalid_persists_nothing_witness :
    let raw : RawForm :=
      { dateOfBirth := "1980-01-01", address := "1 Main St",
        emergencyContactName := "Ann", emergencyContactPhone := "555",
        newPatientConsent := true, patientName := "Jane Doe",
        insuranceAssignmentConsent := false, emergencyMedicalConsent := true,
        accidentDate := "2025-08-01" }
    (submitIntake raw (some "sig") 1 5 7 []).2 = [] ∧
    (∀ i, (submitIntake raw (some "sig") 1 5 7 []).1 ≠ SubmitOutcome.saved i) ∧
    (raw.newPatientConsent = false →
      ("newPatientConsent", "New Patient Consent is required") ∈ validateForm raw) ∧
    (raw.insuranceAssignmentConsent = false →
      ("insuranceAssignmentConsent",
       "Assignment of Insurance Benefits consent is required") ∈ validateForm raw) ∧
    (raw.emergencyMedicalConsent = false →
      ("emergencyMedicalConsent",
       "Notice of Emergency Medical Condition acknowledgment is required")
        ∈ validateForm raw) := by
  intro raw
  exact submit_invalid_persists_nothing raw (some "sig") 1 5 7 []
    (Or.inr (Or.inl rfl))

/-- C9: the cleanup sweep deletes exactly the expired incomplete
sessions, is idempotent at a fixed sweep time, and is a no-op on a
state with no expired incomplete session. -/
theorem cleanup_sweep_exact_idempotent (now : Nat)
    (sessions : List IntakeSessionRow) :
    (∀ s, s ∈ cleanup_expired_intake_sessions now sessions ↔
       s ∈ sessions ∧ ¬(s.expires_at < now ∧ s.completed = false)) ∧
    cleanup_expired_intake_sessions now (cleanup_expired_intake_sessions now sessions) =
      cleanup_expired_intake_sessions now sessions ∧
    ((∀ s ∈ sessions, ¬(s.expires_at < now ∧ s.completed = false)) →
      cleanup_expired_intake_sessions now sessions = sessions) := by
  have hb : ∀ s : IntakeSessionRow,
      ((!(decide (s.expires_at < now) && !s.completed)) = true) ↔
        ¬(s.expires_at < now ∧ s.completed = false) := by
    intro s
    cases hc : s.completed <;> by_cases he : s.expires_at < now <;> simp [he]
  refine ⟨?_, ?_, ?_⟩
  · intro s
    rw [cleanup_expired_intake_sessions, List.mem_filter, hb s]
  · apply List.filter_eq_self.mpr
    intro a ha
    exact (List.mem_filter.mp ha).2
  · intro hno
    apply List.filter_eq_self.mpr
    intro a ha
    exact (hb a).mpr (hno a ha)

/-- Witness for C9: the sweep leaves a completed expired session and an
unexpired session alone. -/
theorem cleanup_sweep_witness :
    let s1 : IntakeSessionRow :=
      { id := 1, session_token := "t1", patient_name := "Jane Doe",
        patient_phone := none, expires_at := 3, created_at := 1,
        completed := true }
    let s2 : IntakeSessionRow :=
      { id := 2, session_token := "t2", patient_name := "John Roe",
        patient_phone := some "555", expires_at := 9, created_at := 1,
        completed := false }
    cleanup_expired_intake_sessions 5 [s1, s2] = [s1, s2] := by
  intro s1 s2
  exact (cleanup_sweep_exact_idempotent 5 [s1, s2]).2.2 (by decide)

/-- C7: document generation is deterministic — two runs of generatePDF
on identical locked-form and patient inputs produce identical documents
(identical consent text and interpolated values), whatever the ambient
clock reads at each run. -/
theorem generatePDF_deterministic (now1 now2 : Nat) (f : IntakeFormRow)
    (p : PatientRow) :
    generatePDF now1 f p = generatePDF now2 f p := rfl

/-- C6: when the intake form and patient are found and the upload
succeeds but the email dispatch fails, the handler still returns the
visitor-facing success outcome (HTTP 200, success true), leaves every
stored answers and signed-at untouched, and appends exactly one
email_logs entry referencing the id of the form. -/
theorem email_failure_nonfatal_logged (db : IntakeDB) (ps : List PatientRow)
    (logs : List EmailLogRow) (fid : Nat) (emailErrMsg : String) (now : Nat)
    (form : IntakeFormRow) (hform : db.find? (fun r => r.id == fid) = some form)
    (patient : PatientRow)
    (hpat : ps.find? (fun p => p.id == form.patient_id) = some patient) :
    (sendIntakeEmailHandler (some fid) db ps logs true false emailErrMsg now).1.status = 200 ∧
    (sendIntakeEmailHandler (some fid) db ps logs true false emailErrMsg now).1.success = true ∧
    (sendIntakeEmailHandler (some fid) db ps logs true false emailErrMsg now).2.1.map
        (fun r => (r.id, r.form_data, r.signed_at)) =
      db.map (fun r => (r.id, r.form_data, r.signed_at)) ∧
    (sendIntakeEmailHandler (some fid) db ps logs true false emailErrMsg now).2.2 =
      logs ++ [⟨fid, "Email sending failed: " ++ emailErrMsg⟩] := by
  have hun : sendIntakeEmailHandler (some fid) db ps logs true false emailErrMsg now =
      ({ status := 200, success := true,
         message := "PDF generated successfully (email failed)",
         pdfUrl := some (publicUrlFor fid patient) },
       setPdfUrl fid (publicUrlFor fid patient) now db,
       logs ++ [⟨fid, "Email sending failed: " ++ emailErrMsg⟩]) := by
    simp [sendIntakeEmailHandler, hform, hpat, setPdfUrl]
  rw [hun]
  refine ⟨rfl, rfl, ?_, rfl⟩
  rw [setPdfUrl, List.map_map]
  refine List.map_congr_left ?_
  intro r _
  by_cases h : r.id = fid <;> simp [h]

/-- Witness for C6 at a concrete found form and failing dispatch. -/
theorem email_failure_nonfatal_logged_witness :
    let fdA : FormData :=
      { dateOfBirth := "1980-01-01", address := "1 Main St",
        emergencyContactName := "Ann", emergencyContactPhone := "555",
        newPatientConsent := true, patientName := "Jane Doe",
        insuranceAssignmentConsent := true, emergencyMedicalConsent := true,
        accidentDate := "2025-08-01", signature := some "sigA" }
    let r0 : IntakeFormRow :=
      { id := 4, patient_id := 7, form_data := fdA, signed_at := some 10,
        fax_sent := false, email_sent := false, pdf_url := none,
        pdf_generated_at := none, created_at := 10 }
    let p0 : PatientRow := { id := 7, name := "Jane Doe", phone := some "555" }
    (sendIntakeEmailHandler (some 4) [r0] [p0] [] true false "boom" 30).1.status = 200 ∧
    (sendIntakeEmailHandler (some 4) [r0] [p0] [] true false "boom" 30).1.success = true ∧
    (sendIntakeEmailHandler (some 4) [r0] [p0] [] true false "boom" 30).2.1.map
        (fun r => (r.id, r.form_data, r.signed_at)) =
      ([r0] : IntakeDB).map (fun r => (r.id, r.form_data, r.signed_at)) ∧
    (sendIntakeEmailHandler (some 4) [r0] [p0] [] true false "boom" 30).2.2 =
      [] ++ [⟨4, "Email sending failed: " ++ "boom"⟩] := by
  intro fdA r0 p0
  exact email_failure_nonfatal_logged [r0] [p0] [] 4 "boom" 30 r0 (by decide)
    p0 (by decide)

/-- C10: whenever the form and patient are found and the upload
succeeds, the handler answers HTTP 200 with success true whether or not
the email dispatch succeeds; a failed dispatch only changes the
response message and leaves the email_sent flag of every row as it was. -/
theorem handler_success_despite_email_failure (db : IntakeDB)
    (ps : List PatientRow) (logs : List EmailLogRow) (fid : Nat)
    (emailErrMsg : String) (now : Nat) (emailOk : Bool)
    (form : IntakeFormRow) (hform : db.find? (fun r => r.id == fid) = some form)
    (patient : PatientRow)
    (hpat : ps.find? (fun p => p.id == form.patient_id) = some patient) :
    (sendIntakeEmailHandler (some fid) db ps logs true emailOk emailErrMsg now).1.status = 200 ∧
    (sendIntakeEmailHandler (some fid) db ps logs true emailOk emailErrMsg now).1.success = true ∧
    (emailOk = false →
      (sendIntakeEmailHandler (some fid) db ps logs true emailOk emailErrMsg now).1.message =
        "PDF generated successfully (email failed)" ∧
      (sendIntakeEmailHandler (some fid) db ps logs true emailOk emailErrMsg now).2.1.map
          (fun r => (r.id, r.email_sent)) =
        db.map (fun r => (r.id, r.email_sent))) := by
  cases emailOk with
  | true =>
      have hun : sendIntakeEmailHandler (some fid) db ps logs true true emailErrMsg now =
          ({ status := 200, success := true,
             message := "PDF generated and email sent successfully",
             pdfUrl := some (publicUrlFor fid patient) },
           setEmailSent fid (setPdfUrl fid (publicUrlFor fid patient) now db),
           logs) := by
        simp [sendIntakeEmailHandler, hform, hpat, setPdfUrl, setEmailSent]
      rw [hun]
      exact ⟨rfl, rfl, by intro hc; cases hc⟩
  | false =>
      have hun : sendIntakeEmailHandler (some fid) db ps logs true false emailErrMsg now =
          ({ status := 200, success := true,
             message := "PDF generated successfully (email failed)",
             pdfUrl := some (publicUrlFor fid patient) },
           setPdfUrl fid (publicUrlFor fid patient) now db,
           logs ++ [⟨fid, "Email sending failed: " ++ emailErrMsg⟩]) := by
        simp [sendIntakeEmailHandler, hform, hpat, setPdfUrl]
      rw [hun]
      refine ⟨rfl, rfl, fun _ => ⟨rfl, ?_⟩⟩
      rw [setPdfUrl, List.map_map]
      refine List.map_congr_left ?_
      intro r _
      by_cases h : r.id = fid <;> simp [h]

/-- Witness for C10 at a concrete found form. -/
theorem handler_success_despite_email_failure_witness :
    let fdA : FormData :=
      { dateOfBirth := "1980-01-01", address := "1 Main St",
        emergencyContactName := "Ann", emergencyContactPhone := "555",
        newPatientConsent := true, patientName := "Jane Doe",
        insuranceAssignmentConsent := true, emergencyMedicalConsent := true,
        accidentDate := "2025-08-01", signature := some "sigA" }
    let r0 : IntakeFormRow :=
      { id := 4, patient_id := 7, form_data := fdA, signed_at := some 10,
        fax_sent := false, email_sent := false, pdf_url := none,
        pdf_generated_at := none, created_at := 10 }
    let p0 : PatientRow := { id := 7, name := "Jane Doe", phone := some "555" }
    (sendIntakeEmailHandler (some 4) [r0] [p0] [] true false "boom" 30).1.status = 200 ∧
    (sendIntakeEmailHandler (some 4) [r0] [p0] [] true false "boom" 30).1.success = true ∧
    ((false : Bool) = false →
      (sendIntakeEmailHandler (some 4) [r0] [p0] [] true false "boom" 30).1.message =
        "PDF generated successfully (email failed)" ∧
      (sendIntakeEmailHandler (some 4) [r0] [p0] [] true false "boom" 30).2.1.map
          (fun r => (r.id, r.email_sent)) =
        ([r0] : IntakeDB).map (fun r => (r.id, r.email_sent))) := by
  intro fdA r0 p0
  exact handler_success_despite_email_failure [r0] [p0] [] 4 "boom" 30 false r0
    (by decide) p0 (by decide)

/-- C8: every generated document contains all three consent section
titles regardless of the agree booleans; a declined section is marked
with its NOT line, and the decision block of a declined section is just
that line — no signature image, signed-by or date; the decision block of
an agreed section carries the signed-by line and, when a signature was
captured, the signature image. -/
theorem consent_sections_render (now : Nat) (f : IntakeFormRow) (p : PatientRow) :
    (PdfItem.text newPatientConsentTitle ∈ generatePDF now f p ∧
     PdfItem.text insuranceAssignmentTitle ∈ generatePDF now f p ∧
     PdfItem.text emergencyMedicalTitle ∈ generatePDF now f p) ∧
    (f.form_data.newPatientConsent = false →
      PdfItem.text "☐ Patient has NOT agreed to this consent" ∈ generatePDF now f p) ∧
    (f.form_data.insuranceAssignmentConsent = false →
      PdfItem.text "☐ Patient has NOT agreed to this assignment" ∈ generatePDF now f p) ∧
    (f.form_data.emergencyMedicalConsent = false →
      PdfItem.text "☐ Patient has NOT acknowledged this notice" ∈ generatePDF now f p) ∧
    (∀ sig name dateStr aL nL,
      consentDecision false sig name dateStr aL nL = [PdfItem.text nL]) ∧
    (∀ sig name dateStr aL nL,
      PdfItem.text ("Signed by: " ++ name) ∈ consentDecision true sig name dateStr aL nL) ∧
    (∀ s name dateStr aL nL,
      PdfItem.image s ∈ consentDecision true (some s) name dateStr aL nL) := by
  have ht1 : PdfItem.text newPatientConsentTitle ∈ sectionOneItems f p := by
    unfold sectionOneItems
    exact List.mem_append_left _ (by simp [newPatientConsentBody])
  have ht2 : PdfItem.text insuranceAssignmentTitle ∈ sectionTwoItems f p := by
    unfold sectionTwoItems
    exact List.mem_append_left _ (by simp [insuranceAssignmentBody])
  have ht3 : PdfItem.text emergencyMedicalTitle ∈ sectionThreeItems f p := by
    unfold sectionThreeItems
    exact List.mem_append_left _ (by simp [emergencyMedicalBody])
  have hdoc : ∀ x : PdfItem,
      (x ∈ sectionOneItems f p ∨ x ∈ sectionTwoItems f p ∨
       x ∈ sectionThreeItems f p) → x ∈ generatePDF now f p := by
    intro x hx
    simp only [generatePDF, List.mem_append]
    tauto
  refine ⟨⟨hdoc _ (Or.inl ht1), hdoc _ (Or.inr (Or.inl ht2)),
      hdoc _ (Or.inr (Or.inr ht3))⟩, ?_, ?_, ?_, ?_, ?_, ?_⟩
  · intro hc
    refine hdoc _ (Or.inl ?_)
    unfold sectionOneItems
    refine List.mem_append_right _ ?_
    simp [consentDecision, hc]
  · intro hc
    refine hdoc _ (Or.inr (Or.inl ?_))
    unfold sectionTwoItems
    refine List.mem_append_right _ ?_
    simp [consentDecision, hc]
  · intro hc
    refine hdoc _ (Or.inr (Or.inr ?_))
    unfold sectionThreeItems
    refine List.mem_append_right _ ?_
    simp [consentDecision, hc]
  · intro sig name dateStr aL nL
    simp [consentDecision]
  · intro sig name dateStr aL nL
    cases sig <;> simp [consentDecision]
  · intro s name dateStr aL nL
    simp [consentDecision]

/-- Witness for C8 at a fully declined concrete form. -/
theorem consent_sections_render_witness :
    let fdN : FormData :=
      { dateOfBirth := "1980-01-01", address := "1 Main St",
        emergencyContactName := "Ann", emergencyContactPhone := "555",
        newPatientConsent := false, patientName := "Jane Doe",
        insuranceAssignmentConsent := false, emergencyMedicalConsent := false,
        accidentDate := "2025-08-01", signature := none }
    let r0 : IntakeFormRow :=
      { id := 4, patient_id := 7, form_data := fdN, signed_at := some 10,
        fax_sent := false, email_sent := false, pdf_url := none,
        pdf_generated_at := none, created_at := 10 }
    let p0 : PatientRow := { id := 7, name := "Jane Doe", phone := some "555" }
    PdfItem.text "☐ Patient has NOT agreed to this consent" ∈ generatePDF 0 r0 p0 ∧
    PdfItem.text "☐ Patient has NOT agreed to this assignment" ∈ generatePDF 0 r0 p0 ∧
    PdfItem.text "☐ Patient has NOT acknowledged this notice" ∈ generatePDF 0 r0 p0 := by
  intro fdN r0 p0
  exact ⟨(consent_sections_render 0 r0 p0).2.1 rfl,
    (consent_sections_render 0 r0 p0).2.2.1 rfl,
    (consent_sections_render 0 r0 p0).2.2.2.1 rfl⟩

end SwiftIntake
